import Mathlib

/-!
Shallow embedding of the per-frame animation scheduler, particle simulation
and pointer follower of the portfolio main script (the complete variant of
the file; the older `main.js` variant has the same wraparound and repulsion
structure with slightly different tuning constants).

Numbers are modelled as exact rationals (`ℚ`); the square root that the
script obtains from `Math.sqrt` is not rational in general, so functions
that consume it take an abstract `sqrtf : ℚ → ℚ` parameter.  JavaScript's
`0/0 = NaN` has no counterpart in `ℚ` (where `x / 0 = 0`), so theorems that
depend on division being well behaved carry explicit hypotheses keeping the
divisor away from zero; the one place the script can actually divide by
zero is treated by `repulsion_zero_distance_unguarded`.
-/

/-- `lerp` utility of the script: `(a, b, t) => a + (b - a) * t`. -/
def lerp (a b t : ℚ) : ℚ := a + (b - a) * t

/-- One simulation particle, as pushed by `Particles.spawn`. -/
structure Particle where
  x : ℚ
  y : ℚ
  vx : ℚ
  vy : ℚ
  radius : ℚ
  alpha : ℚ
deriving DecidableEq, Repr

instance : Inhabited Particle := ⟨⟨0, 0, 0, 0, 0, 0⟩⟩

/-- Squared distance from a particle to the tracked mouse position:
`dx*dx + dy*dy` with `dx = p.x - mouse.x`, `dy = p.y - mouse.y`. -/
def distSqToMouse (mx my : ℚ) (p : Particle) : ℚ :=
  (p.x - mx) * (p.x - mx) + (p.y - my) * (p.y - my)

/-- The guard of the mouse-repulsion branch in `Particles.loop`:
`if (!isTouchDevice()) { ... if (distSq < 14400) { ... } }`. -/
def repulsionTaken (touch : Bool) (mx my : ℚ) (p : Particle) : Bool :=
  !touch && decide (distSqToMouse mx my p < 14400)

/-- Velocity update of one particle in one `Particles.loop` pass:
repulsion (when its branch is taken), then damping `* 0.985`, then the
additive drift (the two `(Math.random() - 0.5) * 0.008` samples are passed
in as `dX`, `dY`). -/
def stepVel (sqrtf : ℚ → ℚ) (touch : Bool) (mx my dX dY : ℚ) (p : Particle) : ℚ × ℚ :=
  let v1 : ℚ × ℚ :=
    if repulsionTaken touch mx my p then
      let dist := sqrtf (distSqToMouse mx my p)
      let force := (120 - dist) / 120
      (p.vx + ((p.x - mx) / dist) * force * 0.12,
       p.vy + ((p.y - my) / dist) * force * 0.12)
    else (p.vx, p.vy)
  (v1.1 * 0.985 + dX, v1.2 * 0.985 + dY)

/-- The edge-wrap of `Particles.loop`, applied to one coordinate `c`
against a dimension `d`; it is two successive `if` statements:
`if (c < 0) c = d; if (c > d) c = 0;` (the second tests the value the
first may already have rewritten). -/
def wrap (d c : ℚ) : ℚ :=
  if (if c < 0 then d else c) > d then 0 else if c < 0 then d else c

/-- One particle's full state update in one `Particles.loop` pass:
velocity update, position integration, then edge wrap. -/
def step (sqrtf : ℚ → ℚ) (touch : Bool) (mx my dX dY w h : ℚ) (p : Particle) : Particle :=
  let v := stepVel sqrtf touch mx my dX dY p
  { p with
    vx := v.1
    vy := v.2
    x := wrap w (p.x + v.1)
    y := wrap h (p.y + v.2) }

/-- State of the custom cursor (`Cursor` object): the raw mouse sample,
the two lagged positions (`pos` for the dot, `glowPos` for the glow), the
flags, and whether the DOM elements were found at `init` (`hasEl` for
`.cursor`, `hasGlow` for `.cursor-glow`). -/
structure CursorState where
  mouse : ℚ × ℚ
  pos : ℚ × ℚ
  glowPos : ℚ × ℚ
  hovering : Bool
  hasMoved : Bool
  scrolling : Bool
  hasEl : Bool
  hasGlow : Bool
deriving DecidableEq, Repr

/-- The `Cursor` object's initial field values: mouse, pos and glowPos all
start at `(-100, -100)` and every flag at `false`; `hasEl`/`hasGlow` are
set here for a page where both elements exist. -/
def cursorInit : CursorState :=
  { mouse := (-100, -100), pos := (-100, -100), glowPos := (-100, -100),
    hovering := false, hasMoved := false, scrolling := false,
    hasEl := true, hasGlow := true }

/-- The `mousemove` handler installed by `Cursor.init`: record the raw
sample and, on the very first move, snap both lagged positions to it. -/
def handleMouseMove (cx cy : ℚ) (s : CursorState) : CursorState :=
  let s1 := { s with mouse := (cx, cy) }
  if !s1.hasMoved then
    { s1 with hasMoved := true, pos := (cx, cy), glowPos := (cx, cy) }
  else s1

/-- `Cursor.update`: a no-op until the element exists and a first sample
arrived; otherwise both lagged positions advance toward the raw sample by
`lerp` with factor `0.18` (dot) and `0.08` (glow, when present).  The
`translate3d` style writes are rendering only and carry no state. -/
def cursorUpdate (s : CursorState) : CursorState :=
  if !s.hasEl || !s.hasMoved then s
  else
    { s with
      pos := (lerp s.pos.1 s.mouse.1 0.18, lerp s.pos.2 s.mouse.2 0.18)
      glowPos :=
        if s.hasGlow then
          (lerp s.glowPos.1 s.mouse.1 0.08, lerp s.glowPos.2 s.mouse.2 0.08)
        else s.glowPos }

/-- State of the shared `requestAnimationFrame` loop: the module-level
`rafRunning` flag, plus (for the model) the number of callback chains in
flight. -/
structure SchedState where
  rafRunning : Bool
  chains : ℕ
deriving DecidableEq, Repr

/-- Module state at script load: `let rafRunning = false`, no chain. -/
def schedInit : SchedState := ⟨false, 0⟩

/-- `startSharedLoop()`: return early when the flag is set, otherwise set
it and schedule the `tick` chain (each `tick` runs `Cursor.update` once
and reschedules itself, so one call creates one chain). -/
def startSharedLoop (s : SchedState) : SchedState :=
  if s.rafRunning then s else { rafRunning := true, chains := s.chains + 1 }

/-- Per display frame, `Cursor.update` runs once per chain in flight. -/
def updatesPerFrame (s : SchedState) : ℕ := s.chains

/-- Squared velocity magnitude of a particle (magnitude comparisons are
phrased on squares, which is order-equivalent and stays rational). -/
def magSq (p : Particle) : ℚ := p.vx * p.vx + p.vy * p.vy

/-- Squared distance between two particles, as in the connection pass. -/
def pdistSq (a b : Particle) : ℚ :=
  (a.x - b.x) * (a.x - b.x) + (a.y - b.y) * (a.y - b.y)

/-- The connection pass at the end of `Particles.loop`: it runs only when
`!isTouchDevice() && len < 80`; it then visits each index pair `i < j`
and, when the squared distance is under `connectionDistance² = 100²`,
strokes a line with opacity `(1 - dist / 100) * 0.1`.  The result lists
the drawn segments as `(i, j, opacity)`. -/
def connections (sqrtf : ℚ → ℚ) (touch : Bool) (ps : List Particle) : List (ℕ × ℕ × ℚ) :=
  if !touch && decide (ps.length < 80) then
    (List.range ps.length).flatMap (fun i =>
      (List.range ps.length).filterMap (fun j =>
        if i < j then
          if pdistSq (ps.getD i default) (ps.getD j default) < 100 * 100 then
            some (i, j, (1 - sqrtf (pdistSq (ps.getD i default) (ps.getD j default)) / 100) * 0.1)
          else none
        else none))
  else []

/-- One particle as `Particles.spawn` constructs it, from the six
`Math.random()` samples (each in `[0, 1)`) it draws. -/
def mkParticle (w h rx ry rvx rvy rr ra : ℚ) : Particle :=
  { x := rx * w, y := ry * h,
    vx := (rvx - 0.5) * 0.25, vy := (rvy - 0.5) * 0.25,
    radius := rr * 1.8 + 0.4, alpha := ra * 0.35 + 0.08 }

/-- State of the `Particles` object: whether `#particles` was found
(`canvas`), whether a 2D context was obtained (`ctx`), the `running`
flag, the number of pending frame callbacks of the field's own loop
(`loops`, the model of `this.raf`), the particle array, the tracked
mouse position, and the canvas buffer dimensions. -/
structure PField where
  canvas : Bool
  ctx : Bool
  running : Bool
  loops : ℕ
  particles : List Particle
  mouseX : ℚ
  mouseY : ℚ
  width : ℚ
  height : ℚ
deriving DecidableEq, Repr

namespace Particles

/-- `Particles.resize`: early-return without a canvas, otherwise set the
canvas buffer to the window dimensions. -/
def resize (W H : ℚ) (s : PField) : PField :=
  if s.canvas then { s with width := W, height := H } else s

/-- `Particles.spawn(count)`: reset the array, then push `count` fresh
particles randomized over `this.canvas.width/height`.  The randomness is
passed in as six streams indexed by the loop counter.  With no canvas and
`count ≥ 1`, the first loop iteration dereferences `this.canvas.width` on
`null`, which throws a `TypeError` (the array has already been cleared at
that point). -/
def spawn (rx ry rvx rvy rr ra : ℕ → ℚ) (count : ℕ) (s : PField) :
    Except String PField :=
  if s.canvas then
    .ok { s with particles := (List.range count).map (fun i =>
      mkParticle s.width s.height (rx i) (ry i) (rvx i) (rvy i) (rr i) (ra i)) }
  else if count = 0 then .ok { s with particles := [] }
  else .error "TypeError: null canvas"

end Particles

/-- The per-particle pass of one `Particles.loop` invocation, applied to
the array in order; `i` is the loop index, used to draw each particle's
two drift samples from the streams. -/
def stepAll (sqrtf : ℚ → ℚ) (touch : Bool) (mx my : ℚ) (dX dY : ℕ → ℚ)
    (w h : ℚ) : ℕ → List Particle → List Particle
  | _, [] => []
  | i, p :: rest =>
      step sqrtf touch mx my (dX i) (dY i) w h p ::
        stepAll sqrtf touch mx my dX dY w h (i + 1) rest

namespace Particles

/-- One invocation of `Particles.loop`: it returns at once when
`!this.running || !this.ctx` (and then schedules nothing, so the chain
ends); otherwise it steps every particle, draws, and schedules the next
callback (`loops + 1`). -/
def loopBody (sqrtf : ℚ → ℚ) (touch : Bool) (dX dY : ℕ → ℚ) (s : PField) : PField :=
  if s.running && s.ctx then
    { s with
      particles := stepAll sqrtf touch s.mouseX s.mouseY dX dY s.width s.height 0 s.particles
      loops := s.loops + 1 }
  else s

/-- `Particles.start`: early-return when already running, otherwise set
the flag and invoke `loop()` synchronously. -/
def start (sqrtf : ℚ → ℚ) (touch : Bool) (dX dY : ℕ → ℚ) (s : PField) : PField :=
  if s.running then s else loopBody sqrtf touch dX dY { s with running := true }

/-- `Particles.stop`: clear the flag and cancel the pending frame
callback, killing the chain. -/
def stop (s : PField) : PField := { s with running := false, loops := 0 }

/-- A display frame firing for the field's own loop: one pending callback
(if any) is consumed and runs `loop()`. -/
def tick (sqrtf : ℚ → ℚ) (touch : Bool) (dX dY : ℕ → ℚ) (s : PField) : PField :=
  if s.loops = 0 then s
  else loopBody sqrtf touch dX dY { s with loops := s.loops - 1 }

/-- The adaptive particle count of `Particles.init`:
`min(cap, floor(area / divisor))` with `30`/`30000` on touch devices and
`70`/`15000` otherwise. -/
def spawnCount (touch : Bool) (W H : ℚ) : ℕ :=
  if touch then min 30 (⌊W * H / 30000⌋.toNat) else min 70 (⌊W * H / 15000⌋.toNat)

/-- `Particles.init`: bail out without the `#particles` element or under
reduced motion; otherwise call `getContext('2d')` — whose result is NOT
checked by the code, so `ctxOk` models whether it returned a context —
then size the canvas, register the resize/mousemove/visibility listeners
(outside this state model), compute the adaptive count, spawn, and start
the loop.  Note the whole tail runs even when `ctxOk` is false. -/
def initPF (canvasPresent reduced touch ctxOk : Bool) (W H : ℚ) (sqrtf : ℚ → ℚ)
    (rx ry rvx rvy rr ra dX dY : ℕ → ℚ) : Except String PField :=
  let s0 : PField :=
    { canvas := canvasPresent, ctx := false, running := false, loops := 0,
      particles := [], mouseX := -9999, mouseY := -9999, width := 0, height := 0 }
  if !canvasPresent then .ok s0
  else if reduced then .ok s0
  else
    let s2 := resize W H { s0 with ctx := ctxOk }
    match spawn rx ry rvx rvy rr ra (spawnCount touch W H) s2 with
    | .error e => .error e
    | .ok s3 => .ok (start sqrtf touch dX dY s3)

end Particles

/-- A lifecycle call on the particle field: `start()`, `stop()`, or a
display frame firing; start/tick carry the drift samples consumed by the
loop pass they may run. -/
inductive PCall where
  | callStart (dX dY : ℕ → ℚ)
  | callStop
  | callTick (dX dY : ℕ → ℚ)

/-- Run a sequence of lifecycle calls left to right. -/
def applyCalls (sqrtf : ℚ → ℚ) (touch : Bool) : List PCall → PField → PField
  | [], s => s
  | .callStart dX dY :: rest, s =>
      applyCalls sqrtf touch rest (Particles.start sqrtf touch dX dY s)
  | .callStop :: rest, s => applyCalls sqrtf touch rest (Particles.stop s)
  | .callTick dX dY :: rest, s =>
      applyCalls sqrtf touch rest (Particles.tick sqrtf touch dX dY s)

/-- The field's loop-resource invariant: at most one callback chain is
pending, and none while stopped. -/
def PInv (s : PField) : Prop := s.loops ≤ 1 ∧ (s.running = false → s.loops = 0)

/-- A concrete field state used as sample input: running with one pending
callback, one particle drifting right at unit speed, pointer far away. -/
def sampleField : PField :=
  { canvas := true, ctx := true, running := true, loops := 1,
    particles := [⟨10, 20, 1, 0, 1, 1⟩],
    mouseX := -9999, mouseY := -9999, width := 100, height := 100 }

/-- The field state after `init` on a page without the `#particles`
element: neither canvas nor context, nothing running, no particles. -/
def disabledField : PField :=
  { canvas := false, ctx := false, running := false, loops := 0, particles := [],
    mouseX := -9999, mouseY := -9999, width := 0, height := 0 }

/-- The identity function on `ℚ`, used as the `sqrtf` argument at call
sites where the square root is provably never evaluated (or where only
`sqrtf 0 = 0` matters); it maps positives to positives like `Math.sqrt`. -/
def idSqrt : ℚ → ℚ := fun q => q

/-- Constant stream: every `Math.random()`-style sample is `0`. -/
def zeroStream : ℕ → ℚ := fun _ => 0

/-- Constant stream: every sample is `1`. -/
def oneStream : ℕ → ℚ := fun _ => 1

/-- Constant stream: every sample is `0.5`. -/
def halfStream : ℕ → ℚ := fun _ => 0.5

theorem wrap_nonneg (d c : ℚ) (hd : 0 ≤ d) : 0 ≤ wrap d c := by
  unfold wrap
  rcases lt_or_le c 0 with h | h
  · rw [if_pos h]
    split_ifs with h2
    · exact le_rfl
    · exact hd
  · rw [if_neg (not_lt.mpr h)]
    split_ifs with h2
    · exact le_rfl
    · exact h

theorem wrap_le (d c : ℚ) (hd : 0 ≤ d) : wrap d c ≤ d := by
  unfold wrap
  rcases lt_or_le c 0 with h | h
  · rw [if_pos h]
    split_ifs with h2
    · exact hd
    · exact le_rfl
  · rw [if_neg (not_lt.mpr h)]
    split_ifs with h2
    · exact hd
    · exact le_of_not_lt h2

theorem step_x (sqrtf : ℚ → ℚ) (touch : Bool) (mx my dX dY w h : ℚ) (p : Particle) :
    (step sqrtf touch mx my dX dY w h p).x =
      wrap w (p.x + (stepVel sqrtf touch mx my dX dY p).1) := rfl

theorem step_y (sqrtf : ℚ → ℚ) (touch : Bool) (mx my dX dY w h : ℚ) (p : Particle) :
    (step sqrtf touch mx my dX dY w h p).y =
      wrap h (p.y + (stepVel sqrtf touch mx my dX dY p).2) := rfl

theorem step_vx (sqrtf : ℚ → ℚ) (touch : Bool) (mx my dX dY w h : ℚ) (p : Particle) :
    (step sqrtf touch mx my dX dY w h p).vx =
      (stepVel sqrtf touch mx my dX dY p).1 := rfl

theorem step_vy (sqrtf : ℚ → ℚ) (touch : Bool) (mx my dX dY w h : ℚ) (p : Particle) :
    (step sqrtf touch mx my dX dY w h p).vy =
      (stepVel sqrtf touch mx my dX dY p).2 := rfl

theorem stepVel_of_not_repulsion (sqrtf : ℚ → ℚ) (touch : Bool) (mx my dX dY : ℚ)
    (p : Particle) (h : repulsionTaken touch mx my p = false) :
    stepVel sqrtf touch mx my dX dY p = (p.vx * 0.985 + dX, p.vy * 0.985 + dY) := by
  simp [stepVel, h]

/-- Claim C1 (counterexample): the wraparound does NOT keep coordinates
strictly below the dimension.  A particle at `x = 0.5` with velocity
`vx = -2` (repulsion inactive: touch device branch; drift zero) damps to
`vx = -1.97`, integrates to `x = -1.47 < 0`, and the wrap then sets
`x = width` exactly, so `x < width` fails. -/
theorem step_exit_left_lands_on_width :
    (step idSqrt true 0 0 0 0 100 100 ⟨0.5, 50, -2, 0, 1, 0.1⟩).x = 100 ∧
    ¬ (step idSqrt true 0 0 0 0 100 100 ⟨0.5, 50, -2, 0, 1, 0.1⟩).x < 100 := by
  constructor <;>
    · rw [step_x, stepVel_of_not_repulsion _ _ _ _ _ _ _ (by decide)]
      norm_num [wrap]

/-- Claim C1 (amended): after each step's wraparound both coordinates lie
in the closed boxes `[0, width]` and `[0, height]` — a coordinate that
exits the lower edge is placed exactly at the dimension, so the upper
bounds are attained.  The hypotheses `hs`/`hz` confine the statement to
inputs on which the rational model agrees with JavaScript: the square
root of a positive number is positive, and the repulsion branch is not
taken at exactly zero distance (there JavaScript produces `NaN`; see
`repulsion_zero_distance_unguarded`). -/
theorem step_wraparound_closed_bounds (sqrtf : ℚ → ℚ) (touch : Bool)
    (mx my dX dY w h : ℚ) (p : Particle)
    (hw : 0 ≤ w) (hh : 0 ≤ h)
    (hs : ∀ q, 0 < q → 0 < sqrtf q)
    (hz : repulsionTaken touch mx my p = true → distSqToMouse mx my p ≠ 0) :
    0 ≤ (step sqrtf touch mx my dX dY w h p).x ∧
      (step sqrtf touch mx my dX dY w h p).x ≤ w ∧
      0 ≤ (step sqrtf touch mx my dX dY w h p).y ∧
      (step sqrtf touch mx my dX dY w h p).y ≤ h := by
  rw [step_x, step_y]
  exact ⟨wrap_nonneg _ _ hw, wrap_le _ _ hw, wrap_nonneg _ _ hh, wrap_le _ _ hh⟩

/-- Witness for `step_wraparound_closed_bounds` at a concrete input. -/
theorem step_wraparound_closed_bounds_witness :
    0 ≤ (step idSqrt false (-9999) (-9999) 0 0 100 100 ⟨10, 20, 3, -4, 1, 0.1⟩).x ∧
      (step idSqrt false (-9999) (-9999) 0 0 100 100 ⟨10, 20, 3, -4, 1, 0.1⟩).x ≤ 100 ∧
      0 ≤ (step idSqrt false (-9999) (-9999) 0 0 100 100 ⟨10, 20, 3, -4, 1, 0.1⟩).y ∧
      (step idSqrt false (-9999) (-9999) 0 0 100 100 ⟨10, 20, 3, -4, 1, 0.1⟩).y ≤ 100 :=
  step_wraparound_closed_bounds idSqrt false (-9999) (-9999) 0 0 100 100
    ⟨10, 20, 3, -4, 1, 0.1⟩ (by norm_num) (by norm_num) (fun q hq => hq)
    (fun hb => absurd hb (by
      have hlt : ¬ (distSqToMouse (-9999) (-9999)
          (⟨10, 20, 3, -4, 1, 0.1⟩ : Particle) < 14400) := by
        norm_num [distSqToMouse]
      simp [repulsionTaken, hlt]))

/-- Claim C2: the zero-distance case of the mouse repulsion is NOT
guarded.  For a particle located exactly at the mouse position the
repulsion branch is taken (`distSq = 0 < 14400`) and the divisor is
`Math.sqrt(0) = 0`, so JavaScript computes `dx / dist = 0 / 0 = NaN` and
adds it into the velocity: nothing skips the force application and
nothing floors the distance. -/
theorem repulsion_zero_distance_unguarded :
    repulsionTaken false 100 100 ⟨100, 100, 0, 0, 1, 0.1⟩ = true ∧
    distSqToMouse 100 100 ⟨100, 100, 0, 0, 1, 0.1⟩ = 0 := by
  constructor
  · norm_num [repulsionTaken, distSqToMouse]
  · norm_num [distSqToMouse]

theorem sharedLoop_iterate_eq (n : ℕ) (hn : 1 ≤ n) :
    startSharedLoop^[n] schedInit = ⟨true, 1⟩ := by
  induction n with
  | zero => omega
  | succ n ih =>
    rcases Nat.eq_or_lt_of_le hn with h | h
    · rw [← h]
      rfl
    · rw [Function.iterate_succ_apply', ih (by omega)]
      rfl

/-- Claim C3: `startSharedLoop` is a no-op while the loop is running, and
over every sequence of calls starting from the module's initial state at
most one callback chain is ever in flight — exactly one once the loop has
been started — so `Cursor.update` runs exactly once per frame. -/
theorem startSharedLoop_single_chain (s : SchedState) (n : ℕ) :
    (s.rafRunning = true → startSharedLoop s = s) ∧
    (startSharedLoop^[n] schedInit).chains ≤ 1 ∧
    (1 ≤ n → updatesPerFrame (startSharedLoop^[n] schedInit) = 1) := by
  refine ⟨fun h => by simp [startSharedLoop, h], ?_, fun hn => ?_⟩
  · rcases Nat.eq_zero_or_pos n with h | h
    · subst h
      decide
    · rw [sharedLoop_iterate_eq n h]
  · rw [sharedLoop_iterate_eq n hn]
    rfl

/-- Witness for `startSharedLoop_single_chain` at a concrete input. -/
theorem startSharedLoop_single_chain_witness :
    startSharedLoop ⟨true, 1⟩ = ⟨true, 1⟩ ∧
    updatesPerFrame (startSharedLoop^[5] schedInit) = 1 :=
  ⟨(startSharedLoop_single_chain ⟨true, 1⟩ 5).1 rfl,
   (startSharedLoop_single_chain ⟨true, 1⟩ 5).2.2 (by norm_num)⟩

/-- Claim C5: on the very first raw pointer sample (`hasMoved` still
false) the handler sets both lagged positions exactly equal to the
sample — no interpolation from the `(-100, -100)` defaults. -/
theorem first_sample_snaps_exactly (cx cy : ℚ) (s : CursorState)
    (h : s.hasMoved = false) :
    (handleMouseMove cx cy s).pos = (cx, cy) ∧
    (handleMouseMove cx cy s).glowPos = (cx, cy) ∧
    (handleMouseMove cx cy s).mouse = (cx, cy) ∧
    (handleMouseMove cx cy s).hasMoved = true := by
  simp [handleMouseMove, h]

/-- Witness for `first_sample_snaps_exactly` at a concrete input. -/
theorem first_sample_snaps_exactly_witness :
    (handleMouseMove 321 87 cursorInit).pos = (321, 87) ∧
    (handleMouseMove 321 87 cursorInit).glowPos = (321, 87) ∧
    (handleMouseMove 321 87 cursorInit).mouse = (321, 87) ∧
    (handleMouseMove 321 87 cursorInit).hasMoved = true :=
  first_sample_snaps_exactly 321 87 cursorInit rfl

theorem geom_decay_lt (r C ε : ℚ) (h0 : 0 ≤ r) (h1 : r < 1) (hC : 0 ≤ C)
    (hε : 0 < ε) : ∃ N, ∀ n, N ≤ n → r ^ n * C < ε := by
  rcases eq_or_lt_of_le hC with hC0 | hC0
  · exact ⟨0, fun n _ => by rw [← hC0, mul_zero]; exact hε⟩
  · obtain ⟨N, hN⟩ := exists_pow_lt_of_lt_one (div_pos hε hC0) h1
    refine ⟨N, fun n hn => ?_⟩
    have hpow : r ^ n ≤ r ^ N := pow_le_pow_of_le_one h0 h1.le hn
    have h2 : r ^ n * C ≤ r ^ N * C :=
      mul_le_mul_of_nonneg_right hpow hC0.le
    have h3 : r ^ N * C < ε := (lt_div_iff hC0).mp hN
    exact lt_of_le_of_lt h2 h3

theorem geom_abs_mono (r c : ℚ) (h0 : 0 ≤ r) (h1 : r ≤ 1) (n : ℕ) :
    |r ^ (n + 1) * c| ≤ |r ^ n * c| := by
  rw [abs_mul, abs_mul, abs_pow, abs_pow, abs_of_nonneg h0]
  exact mul_le_mul_of_nonneg_right (pow_le_pow_of_le_one h0 h1 (Nat.le_succ n))
    (abs_nonneg c)

theorem geom_abs_decay (r c ε : ℚ) (h0 : 0 ≤ r) (h1 : r < 1) (hε : 0 < ε) :
    ∃ N, ∀ n, N ≤ n → |r ^ n * c| < ε := by
  obtain ⟨N, hN⟩ := geom_decay_lt r |c| ε h0 h1 (abs_nonneg c) hε
  exact ⟨N, fun n hn => by
    rw [abs_mul, abs_pow, abs_of_nonneg h0]
    exact hN n hn⟩

theorem cursorUpdate_preserves (s : CursorState) (n : ℕ) :
    (cursorUpdate^[n] s).mouse = s.mouse ∧
    (cursorUpdate^[n] s).hasEl = s.hasEl ∧
    (cursorUpdate^[n] s).hasMoved = s.hasMoved ∧
    (cursorUpdate^[n] s).hasGlow = s.hasGlow := by
  induction n with
  | zero => simp
  | succ n ih =>
    obtain ⟨h1, h2, h3, h4⟩ := ih
    rw [Function.iterate_succ_apply']
    unfold cursorUpdate
    split_ifs <;> exact ⟨h1, h2, h3, h4⟩

theorem cursorUpdate_active_glow (s : CursorState) (hEl : s.hasEl = true)
    (hMv : s.hasMoved = true) (hGl : s.hasGlow = true) :
    cursorUpdate s =
      { s with
        pos := (lerp s.pos.1 s.mouse.1 0.18, lerp s.pos.2 s.mouse.2 0.18)
        glowPos := (lerp s.glowPos.1 s.mouse.1 0.08, lerp s.glowPos.2 s.mouse.2 0.08) } := by
  unfold cursorUpdate
  rw [hEl, hMv, hGl]
  rfl

theorem cursorUpdate_closed (s : CursorState) (hEl : s.hasEl = true)
    (hMv : s.hasMoved = true) (hGl : s.hasGlow = true) (n : ℕ) :
    (cursorUpdate^[n] s).pos.1 = s.mouse.1 + 0.82 ^ n * (s.pos.1 - s.mouse.1) ∧
    (cursorUpdate^[n] s).pos.2 = s.mouse.2 + 0.82 ^ n * (s.pos.2 - s.mouse.2) ∧
    (cursorUpdate^[n] s).glowPos.1 = s.mouse.1 + 0.92 ^ n * (s.glowPos.1 - s.mouse.1) ∧
    (cursorUpdate^[n] s).glowPos.2 = s.mouse.2 + 0.92 ^ n * (s.glowPos.2 - s.mouse.2) := by
  induction n with
  | zero => refine ⟨?_, ?_, ?_, ?_⟩ <;> simp <;> ring
  | succ n ih =>
    obtain ⟨e1, e2, e3, e4⟩ := ih
    obtain ⟨hm, he, hv, hg⟩ := cursorUpdate_preserves s n
    have hglow : (cursorUpdate^[n] s).hasGlow = true := by rw [hg, hGl]
    rw [Function.iterate_succ_apply',
      cursorUpdate_active_glow _ (by rw [he, hEl]) (by rw [hv, hMv]) hglow]
    refine ⟨?_, ?_, ?_, ?_⟩ <;>
      simp only [lerp, e1, e2, e3, e4, hm] <;> ring

/-- Claim C6: each `Cursor.update` call advances both lagged positions
toward the latest raw sample by `pos = pos + (target - pos) * factor`,
with factor `0.18` for the dot and `0.08` for the glow; the raw sample is
untouched by `update`, so for a constant target the distance to the
target is monotonically non-increasing and eventually under any positive
epsilon. -/
theorem cursor_update_smoothing_convergence (s : CursorState)
    (hEl : s.hasEl = true) (hMv : s.hasMoved = true) (hGl : s.hasGlow = true) :
    (∀ n, (cursorUpdate^[n] s).mouse = s.mouse) ∧
    (∀ n,
      (cursorUpdate^[n + 1] s).pos.1 =
        (cursorUpdate^[n] s).pos.1 + (s.mouse.1 - (cursorUpdate^[n] s).pos.1) * 0.18 ∧
      (cursorUpdate^[n + 1] s).pos.2 =
        (cursorUpdate^[n] s).pos.2 + (s.mouse.2 - (cursorUpdate^[n] s).pos.2) * 0.18 ∧
      (cursorUpdate^[n + 1] s).glowPos.1 =
        (cursorUpdate^[n] s).glowPos.1 + (s.mouse.1 - (cursorUpdate^[n] s).glowPos.1) * 0.08 ∧
      (cursorUpdate^[n + 1] s).glowPos.2 =
        (cursorUpdate^[n] s).glowPos.2 + (s.mouse.2 - (cursorUpdate^[n] s).glowPos.2) * 0.08) ∧
    (∀ n,
      |(cursorUpdate^[n + 1] s).pos.1 - s.mouse.1| ≤ |(cursorUpdate^[n] s).pos.1 - s.mouse.1| ∧
      |(cursorUpdate^[n + 1] s).pos.2 - s.mouse.2| ≤ |(cursorUpdate^[n] s).pos.2 - s.mouse.2| ∧
      |(cursorUpdate^[n + 1] s).glowPos.1 - s.mouse.1| ≤
        |(cursorUpdate^[n] s).glowPos.1 - s.mouse.1| ∧
      |(cursorUpdate^[n + 1] s).glowPos.2 - s.mouse.2| ≤
        |(cursorUpdate^[n] s).glowPos.2 - s.mouse.2|) ∧
    (∀ ε : ℚ, 0 < ε → ∃ N, ∀ n, N ≤ n →
      |(cursorUpdate^[n] s).pos.1 - s.mouse.1| < ε ∧
      |(cursorUpdate^[n] s).pos.2 - s.mouse.2| < ε ∧
      |(cursorUpdate^[n] s).glowPos.1 - s.mouse.1| < ε ∧
      |(cursorUpdate^[n] s).glowPos.2 - s.mouse.2| < ε) := by
  have key := cursorUpdate_closed s hEl hMv hGl
  have hmouse : ∀ n, (cursorUpdate^[n] s).mouse = s.mouse :=
    fun n => (cursorUpdate_preserves s n).1
  have dpos1 : ∀ n, (cursorUpdate^[n] s).pos.1 - s.mouse.1 =
      0.82 ^ n * (s.pos.1 - s.mouse.1) := fun n => by rw [(key n).1]; ring
  have dpos2 : ∀ n, (cursorUpdate^[n] s).pos.2 - s.mouse.2 =
      0.82 ^ n * (s.pos.2 - s.mouse.2) := fun n => by rw [(key n).2.1]; ring
  have dglow1 : ∀ n, (cursorUpdate^[n] s).glowPos.1 - s.mouse.1 =
      0.92 ^ n * (s.glowPos.1 - s.mouse.1) := fun n => by rw [(key n).2.2.1]; ring
  have dglow2 : ∀ n, (cursorUpdate^[n] s).glowPos.2 - s.mouse.2 =
      0.92 ^ n * (s.glowPos.2 - s.mouse.2) := fun n => by rw [(key n).2.2.2]; ring
  refine ⟨hmouse, fun n => ?_, fun n => ?_, fun ε hε => ?_⟩
  · refine ⟨?_, ?_, ?_, ?_⟩
    · rw [(key (n + 1)).1, (key n).1]
      ring
    · rw [(key (n + 1)).2.1, (key n).2.1]
      ring
    · rw [(key (n + 1)).2.2.1, (key n).2.2.1]
      ring
    · rw [(key (n + 1)).2.2.2, (key n).2.2.2]
      ring
  · rw [dpos1, dpos1, dpos2, dpos2, dglow1, dglow1, dglow2, dglow2]
    exact ⟨geom_abs_mono _ _ (by norm_num) (by norm_num) n,
      geom_abs_mono _ _ (by norm_num) (by norm_num) n,
      geom_abs_mono _ _ (by norm_num) (by norm_num) n,
      geom_abs_mono _ _ (by norm_num) (by norm_num) n⟩
  · obtain ⟨N1, h1⟩ := geom_abs_decay 0.82 (s.pos.1 - s.mouse.1) ε
      (by norm_num) (by norm_num) hε
    obtain ⟨N2, h2⟩ := geom_abs_decay 0.82 (s.pos.2 - s.mouse.2) ε
      (by norm_num) (by norm_num) hε
    obtain ⟨N3, h3⟩ := geom_abs_decay 0.92 (s.glowPos.1 - s.mouse.1) ε
      (by norm_num) (by norm_num) hε
    obtain ⟨N4, h4⟩ := geom_abs_decay 0.92 (s.glowPos.2 - s.mouse.2) ε
      (by norm_num) (by norm_num) hε
    refine ⟨max (max N1 N2) (max N3 N4), fun n hn => ?_⟩
    rw [dpos1, dpos2, dglow1, dglow2]
    exact ⟨h1 n (le_trans (le_max_left _ _) (le_trans (le_max_left _ _) hn)),
      h2 n (le_trans (le_max_right _ _) (le_trans (le_max_left _ _) hn)),
      h3 n (le_trans (le_max_left _ _) (le_trans (le_max_right _ _) hn)),
      h4 n (le_trans (le_max_right _ _) (le_trans (le_max_right _ _) hn))⟩

/-- Witness for `cursor_update_smoothing_convergence` at a concrete
state and epsilon. -/
theorem cursor_update_smoothing_convergence_witness :
    ∃ N, ∀ n, N ≤ n →
      |(cursorUpdate^[n] (⟨(50, 60), (0, 0), (0, 0), false, true, false, true, true⟩ :
        CursorState)).pos.1 -
        (⟨(50, 60), (0, 0), (0, 0), false, true, false, true, true⟩ :
          CursorState).mouse.1| < 1 ∧
      |(cursorUpdate^[n] (⟨(50, 60), (0, 0), (0, 0), false, true, false, true, true⟩ :
        CursorState)).pos.2 -
        (⟨(50, 60), (0, 0), (0, 0), false, true, false, true, true⟩ :
          CursorState).mouse.2| < 1 ∧
      |(cursorUpdate^[n] (⟨(50, 60), (0, 0), (0, 0), false, true, false, true, true⟩ :
        CursorState)).glowPos.1 -
        (⟨(50, 60), (0, 0), (0, 0), false, true, false, true, true⟩ :
          CursorState).mouse.1| < 1 ∧
      |(cursorUpdate^[n] (⟨(50, 60), (0, 0), (0, 0), false, true, false, true, true⟩ :
        CursorState)).glowPos.2 -
        (⟨(50, 60), (0, 0), (0, 0), false, true, false, true, true⟩ :
          CursorState).mouse.2| < 1 :=
  (cursor_update_smoothing_convergence
    ⟨(50, 60), (0, 0), (0, 0), false, true, false, true, true⟩
    rfl rfl rfl).2.2.2 1 (by norm_num)

/-- Claim C7: with the repulsion branch never taken and both drift
samples zero, each frame multiplies each velocity component by exactly
the damping factor `0.985`, so the squared velocity magnitude is
non-increasing across frames and eventually under any positive epsilon
(geometric decay). -/
theorem damping_decay_no_forces (sqrtf : ℚ → ℚ) (touch : Bool) (mx my w h : ℚ)
    (p : Particle)
    (hrep : ∀ n, repulsionTaken touch mx my
      ((step sqrtf touch mx my 0 0 w h)^[n] p) = false) :
    (∀ n,
      ((step sqrtf touch mx my 0 0 w h)^[n + 1] p).vx =
        0.985 * ((step sqrtf touch mx my 0 0 w h)^[n] p).vx ∧
      ((step sqrtf touch mx my 0 0 w h)^[n + 1] p).vy =
        0.985 * ((step sqrtf touch mx my 0 0 w h)^[n] p).vy) ∧
    (∀ n,
      ((step sqrtf touch mx my 0 0 w h)^[n] p).vx = 0.985 ^ n * p.vx ∧
      ((step sqrtf touch mx my 0 0 w h)^[n] p).vy = 0.985 ^ n * p.vy) ∧
    (∀ n, magSq ((step sqrtf touch mx my 0 0 w h)^[n + 1] p) ≤
      magSq ((step sqrtf touch mx my 0 0 w h)^[n] p)) ∧
    (∀ ε : ℚ, 0 < ε → ∃ N, ∀ n, N ≤ n →
      magSq ((step sqrtf touch mx my 0 0 w h)^[n] p) < ε) := by
  have hstep : ∀ n,
      ((step sqrtf touch mx my 0 0 w h)^[n + 1] p).vx =
        0.985 * ((step sqrtf touch mx my 0 0 w h)^[n] p).vx ∧
      ((step sqrtf touch mx my 0 0 w h)^[n + 1] p).vy =
        0.985 * ((step sqrtf touch mx my 0 0 w h)^[n] p).vy := by
    intro n
    rw [Function.iterate_succ_apply']
    constructor
    · rw [step_vx, stepVel_of_not_repulsion _ _ _ _ _ _ _ (hrep n)]
      ring
    · rw [step_vy, stepVel_of_not_repulsion _ _ _ _ _ _ _ (hrep n)]
      ring
  have hms : ∀ n, magSq ((step sqrtf touch mx my 0 0 w h)^[n + 1] p) =
      (0.985 * 0.985) * magSq ((step sqrtf touch mx my 0 0 w h)^[n] p) := by
    intro n
    unfold magSq
    rw [(hstep n).1, (hstep n).2]
    ring
  have hnn : ∀ q : Particle, 0 ≤ magSq q :=
    fun q => add_nonneg (mul_self_nonneg q.vx) (mul_self_nonneg q.vy)
  have hcf : ∀ n, magSq ((step sqrtf touch mx my 0 0 w h)^[n] p) =
      (0.985 * 0.985) ^ n * magSq p := by
    intro n
    induction n with
    | zero => simp
    | succ n ih =>
      rw [hms n, ih]
      ring
  refine ⟨hstep, ?_, fun n => ?_, fun ε hε => ?_⟩
  · intro n
    induction n with
    | zero => constructor <;> simp
    | succ n ih =>
      refine ⟨?_, ?_⟩
      · rw [(hstep n).1, ih.1]
        ring
      · rw [(hstep n).2, ih.2]
        ring
  · have h0 := hnn ((step sqrtf touch mx my 0 0 w h)^[n] p)
    rw [hms n]
    nlinarith
  · obtain ⟨N, hN⟩ := geom_decay_lt (0.985 * 0.985) (magSq p) ε
      (by norm_num) (by norm_num) (hnn p) hε
    exact ⟨N, fun n hn => by
      rw [hcf n]
      exact hN n hn⟩

/-- Witness for `damping_decay_no_forces` at a concrete input. -/
theorem damping_decay_no_forces_witness :
    ∃ N, ∀ n, N ≤ n →
      magSq ((step idSqrt true 0 0 0 0 100 100)^[n] ⟨0, 0, 1, 1, 1, 1⟩) < 1 :=
  (damping_decay_no_forces idSqrt true 0 0 100 100 ⟨0, 0, 1, 1, 1, 1⟩
    (fun n => rfl)).2.2.2 1 (by norm_num)

theorem stepAll_length (sqrtf : ℚ → ℚ) (touch : Bool) (mx my : ℚ) (dX dY : ℕ → ℚ)
    (w h : ℚ) : ∀ (i : ℕ) (ps : List Particle),
    (stepAll sqrtf touch mx my dX dY w h i ps).length = ps.length := by
  intro i ps
  induction ps generalizing i with
  | nil => rfl
  | cons p rest ih => simp [stepAll, ih]

theorem loopBody_running (sqrtf : ℚ → ℚ) (touch : Bool) (dX dY : ℕ → ℚ) (s : PField) :
    (Particles.loopBody sqrtf touch dX dY s).running = s.running := by
  unfold Particles.loopBody
  split_ifs <;> rfl

theorem start_of_running (sqrtf : ℚ → ℚ) (touch : Bool) (dX dY : ℕ → ℚ) (s : PField)
    (h : s.running = true) : Particles.start sqrtf touch dX dY s = s := by
  unfold Particles.start
  rw [if_pos h]

theorem start_running (sqrtf : ℚ → ℚ) (touch : Bool) (dX dY : ℕ → ℚ) (s : PField) :
    (Particles.start sqrtf touch dX dY s).running = true := by
  unfold Particles.start
  split_ifs with h
  · exact h
  · rw [loopBody_running]

theorem start_inv (sqrtf : ℚ → ℚ) (touch : Bool) (dX dY : ℕ → ℚ) (s : PField)
    (h : PInv s) : PInv (Particles.start sqrtf touch dX dY s) := by
  obtain ⟨cv, cx, rn, lp, ps, mX, mY, w, hh⟩ := s
  obtain ⟨h1, h2⟩ := h
  unfold Particles.start Particles.loopBody
  cases rn
  · have hl : lp = 0 := h2 rfl
    subst hl
    cases cx <;> simp [PInv]
  · exact ⟨h1, h2⟩

theorem stop_inv (s : PField) : PInv (Particles.stop s) := ⟨by simp [Particles.stop], fun _ => rfl⟩

theorem tick_inv (sqrtf : ℚ → ℚ) (touch : Bool) (dX dY : ℕ → ℚ) (s : PField)
    (h : PInv s) : PInv (Particles.tick sqrtf touch dX dY s) := by
  obtain ⟨cv, cx, rn, lp, ps, mX, mY, w, hh⟩ := s
  obtain ⟨h1, h2⟩ := h
  dsimp only at h1 h2
  unfold Particles.tick Particles.loopBody PInv
  dsimp only
  split_ifs with hz hb
  · exact ⟨h1, fun hr => h2 hr⟩
  · rw [Bool.and_eq_true] at hb
    refine ⟨by dsimp only; omega, fun hr => ?_⟩
    dsimp only at hr
    rw [hb.1] at hr
    simp at hr
  · exact ⟨by dsimp only; omega, fun _ => by dsimp only; omega⟩

theorem applyCalls_inv (sqrtf : ℚ → ℚ) (touch : Bool) (calls : List PCall)
    (s : PField) (h : PInv s) : PInv (applyCalls sqrtf touch calls s) := by
  induction calls generalizing s with
  | nil => exact h
  | cons c rest ih =>
    cases c with
    | callStart dX dY => exact ih _ (start_inv sqrtf touch dX dY s h)
    | callStop => exact ih _ (stop_inv s)
    | callTick dX dY => exact ih _ (tick_inv sqrtf touch dX dY s h)

/-- Claim C4 (counterexample): `stop()` followed by `start()` does NOT
leave the per-particle state unchanged: `start` invokes `loop()`
synchronously, so the single particle of `sampleField` (velocity
`vx = 1`) is advanced one integration step — its velocity becomes
`0.985` — before the next frame even fires. -/
theorem stop_start_advances_particle_state :
    (Particles.start idSqrt true zeroStream zeroStream
      (Particles.stop sampleField)).particles ≠ sampleField.particles := by
  intro hEq
  have h1 : (Particles.start idSqrt true zeroStream zeroStream
      (Particles.stop sampleField)).particles =
      [step idSqrt true (-9999) (-9999) 0 0 100 100 ⟨10, 20, 1, 0, 1, 1⟩] := by
    simp [Particles.start, Particles.stop, Particles.loopBody, stepAll, sampleField, zeroStream]
  rw [h1] at hEq
  have h2 : step idSqrt true (-9999) (-9999) 0 0 100 100 ⟨10, 20, 1, 0, 1, 1⟩ =
      (⟨10, 20, 1, 0, 1, 1⟩ : Particle) := by
    simpa [sampleField] using hEq
  have h3 := congrArg Particle.vx h2
  rw [step_vx, stepVel_of_not_repulsion idSqrt true (-9999) (-9999) 0 0
    ⟨10, 20, 1, 0, 1, 1⟩ rfl] at h3
  norm_num at h3

/-- Claim C4 (amended): `start` and `stop` are idempotent and safely
callable in any order — every call sequence preserves the invariant of
at most one pending callback chain (none while stopped) — and
`stop(); start()` resumes with exactly one chain and the same particle
collection continuing: the count is unchanged and each particle is its
former self advanced by the one integration pass that `start`'s
synchronous `loop()` call performs (no respawn, no reset, no duplicate
loop). -/
theorem start_stop_lifecycle_spec (sqrtf : ℚ → ℚ) (touch : Bool) (dX dY : ℕ → ℚ)
    (s : PField) :
    Particles.start sqrtf touch dX dY (Particles.start sqrtf touch dX dY s) =
      Particles.start sqrtf touch dX dY s ∧
    Particles.stop (Particles.stop s) = Particles.stop s ∧
    (Particles.start sqrtf touch dX dY (Particles.stop s)).particles.length =
      s.particles.length ∧
    (s.ctx = true →
      Particles.start sqrtf touch dX dY (Particles.stop s) =
        { s with
          running := true
          loops := 1
          particles := stepAll sqrtf touch s.mouseX s.mouseY dX dY
            s.width s.height 0 s.particles }) ∧
    (s.ctx = false →
      Particles.start sqrtf touch dX dY (Particles.stop s) =
        { s with running := true, loops := 0 }) ∧
    (∀ calls : List PCall, PInv s → PInv (applyCalls sqrtf touch calls s)) := by
  have h4 : s.ctx = true →
      Particles.start sqrtf touch dX dY (Particles.stop s) =
        { s with
          running := true
          loops := 1
          particles := stepAll sqrtf touch s.mouseX s.mouseY dX dY
            s.width s.height 0 s.particles } := by
    intro hx
    obtain ⟨cv, cx, rn, lp, ps, mX, mY, w, hh⟩ := s
    dsimp only at hx
    subst hx
    simp [Particles.start, Particles.stop, Particles.loopBody]
  have h5 : s.ctx = false →
      Particles.start sqrtf touch dX dY (Particles.stop s) =
        { s with running := true, loops := 0 } := by
    intro hx
    obtain ⟨cv, cx, rn, lp, ps, mX, mY, w, hh⟩ := s
    dsimp only at hx
    subst hx
    simp [Particles.start, Particles.stop, Particles.loopBody]
  refine ⟨start_of_running _ _ _ _ _ (start_running sqrtf touch dX dY s), rfl, ?_,
    h4, h5, fun calls h => applyCalls_inv sqrtf touch calls s h⟩
  rcases Bool.eq_false_or_eq_true s.ctx with hx | hx
  · rw [h4 hx]
    exact stepAll_length sqrtf touch s.mouseX s.mouseY dX dY s.width s.height 0 s.particles
  · rw [h5 hx]

/-- Witness for `start_stop_lifecycle_spec` at a concrete input. -/
theorem start_stop_lifecycle_spec_witness :
    (Particles.start idSqrt true zeroStream zeroStream
        (Particles.start idSqrt true zeroStream zeroStream sampleField) =
      Particles.start idSqrt true zeroStream zeroStream sampleField) ∧
    PInv (applyCalls idSqrt true
      [PCall.callStop, PCall.callStart zeroStream zeroStream] sampleField) :=
  ⟨(start_stop_lifecycle_spec idSqrt true zeroStream zeroStream sampleField).1,
   (start_stop_lifecycle_spec idSqrt true zeroStream zeroStream
      sampleField).2.2.2.2.2
     [PCall.callStop, PCall.callStart zeroStream zeroStream]
     ⟨by norm_num [sampleField], fun hco => by simp [sampleField] at hco⟩⟩

/-- Claim C8: the connection pass is skipped entirely on touch devices
and whenever the particle count is 80 or more (in particular for 81
particles); when it runs, the drawn segments are exactly the index pairs
`i < j` whose squared distance is under `100²`, each with opacity
`(1 - dist / 100) * 0.1`. -/
theorem connection_pass_spec (sqrtf : ℚ → ℚ) (ps : List Particle) :
    connections sqrtf true ps = [] ∧
    (80 < ps.length → connections sqrtf false ps = []) ∧
    (∀ i j a, (i, j, a) ∈ connections sqrtf false ps ↔
      ps.length < 80 ∧ i < j ∧ j < ps.length ∧
      pdistSq (ps.getD i default) (ps.getD j default) < 100 * 100 ∧
      a = (1 - sqrtf (pdistSq (ps.getD i default) (ps.getD j default)) / 100) * 0.1) := by
  refine ⟨by simp [connections], fun hlen => ?_, fun i j a => ?_⟩
  · have hn : ¬ ps.length < 80 := by omega
    simp [connections, hn]
  · by_cases hlen : ps.length < 80
    · constructor
      · intro hmem
        simp [connections, hlen, List.mem_flatMap, List.mem_filterMap,
          List.mem_range] at hmem
        obtain ⟨i', hi', j', hj', hsome⟩ := hmem
        obtain ⟨hij, hd, rfl, rfl, ha⟩ := hsome
        simp only [List.getD_eq_getElem?_getD]
        exact ⟨hlen, hij, hj', hd, ha.symm⟩
      · rintro ⟨hl, hij, hj, hd, rfl⟩
        simp only [List.getD_eq_getElem?_getD] at hd
        simp [connections, hlen, List.mem_flatMap, List.mem_filterMap, List.mem_range]
        exact ⟨i, lt_trans hij hj, j, hj, hij, hd, rfl, rfl, Or.inl rfl⟩
    · constructor
      · intro hmem
        simp [connections, hlen] at hmem
      · rintro ⟨hl, _⟩
        exact absurd hl hlen

/-- Witness for `connection_pass_spec` at a concrete input: with 81
particles the pass is skipped even though connection drawing is
enabled (non-touch). -/
theorem connection_pass_spec_witness :
    connections idSqrt true (List.replicate 81 (⟨0, 0, 0, 0, 1, 1⟩ : Particle)) = [] ∧
    connections idSqrt false (List.replicate 81 (⟨0, 0, 0, 0, 1, 1⟩ : Particle)) = [] :=
  ⟨(connection_pass_spec idSqrt (List.replicate 81 ⟨0, 0, 0, 0, 1, 1⟩)).1,
   (connection_pass_spec idSqrt (List.replicate 81 ⟨0, 0, 0, 0, 1, 1⟩)).2.1
     (by simp)⟩

/-- Claim C9 (counterexample): with the canvas missing, `spawn` with a
positive count is NOT a no-op that does not throw — its first loop
iteration reads `this.canvas.width` on `null` and throws a `TypeError`
(after having already cleared the particle array). -/
theorem spawn_throws_on_missing_canvas :
    Particles.spawn zeroStream zeroStream zeroStream zeroStream zeroStream
      zeroStream 5 disabledField = .error "TypeError: null canvas" := rfl

/-- Claim C9 (amended): the two "surface unavailable" arms behave
differently, and neither matches the original claim in full.
With the canvas element missing, `init` returns at once — nothing is
spawned, no loop starts — and `resize` and `loop` are no-ops, `stop`
only clears the running flag, `start` only sets it (its synchronous
`loop()` call exits at once and schedules no frame callback); but
`spawn` is not covered by the no-op guarantee: `spawn(0)` still clears
the array and `spawn(count)` with a positive count throws (the
component itself never calls `spawn` in this state).
With the canvas present but `getContext('2d')` returning null, the
field does NOT disable itself: `init` never checks the context — it
still sizes the canvas, registers its listeners, spawns the adaptive
particle count and sets the running flag — and `resize` and `spawn`
remain fully operative; only the loop body is a no-op (it exits before
stepping, drawing or scheduling, so no callback chain ever exists). -/
theorem disabled_field_noop_spec (reduced touch ctxOk : Bool) (W H : ℚ)
    (sqrtf : ℚ → ℚ) (rx ry rvx rvy rr ra dX dY : ℕ → ℚ) (s : PField) :
    Particles.initPF false reduced touch ctxOk W H sqrtf rx ry rvx rvy rr ra dX dY =
      .ok disabledField ∧
    Particles.initPF true false touch false W H sqrtf rx ry rvx rvy rr ra dX dY =
      .ok { canvas := true, ctx := false, running := true, loops := 0,
            particles := (List.range (Particles.spawnCount touch W H)).map (fun i =>
              mkParticle W H (rx i) (ry i) (rvx i) (rvy i) (rr i) (ra i)),
            mouseX := -9999, mouseY := -9999, width := W, height := H } ∧
    (s.canvas = false → Particles.resize W H s = s) ∧
    (s.canvas = true → Particles.resize W H s = { s with width := W, height := H }) ∧
    (s.ctx = false → Particles.loopBody sqrtf touch dX dY s = s) ∧
    (s.ctx = false →
      Particles.start sqrtf touch dX dY s = { s with running := true }) ∧
    Particles.stop s = { s with running := false, loops := 0 } ∧
    (s.canvas = false →
      Particles.spawn rx ry rvx rvy rr ra 0 s = .ok { s with particles := [] }) ∧
    (s.canvas = false → ∀ count : ℕ, 0 < count →
      Particles.spawn rx ry rvx rvy rr ra count s = .error "TypeError: null canvas") ∧
    (s.canvas = true → ∀ count : ℕ,
      Particles.spawn rx ry rvx rvy rr ra count s =
        .ok { s with particles := (List.range count).map (fun i =>
          mkParticle s.width s.height (rx i) (ry i) (rvx i) (rvy i) (rr i) (ra i)) }) := by
  have hstart : s.ctx = false →
      Particles.start sqrtf touch dX dY s = { s with running := true } := by
    intro hx
    obtain ⟨cv, cx, rn, lp, ps, mX, mY, w, hh⟩ := s
    dsimp only at hx
    subst hx
    cases rn <;> simp [Particles.start, Particles.loopBody]
  refine ⟨rfl, rfl, fun hc => by simp [Particles.resize, hc],
    fun hc => by simp [Particles.resize, hc],
    fun hx => by simp [Particles.loopBody, hx], hstart, rfl,
    fun hc => by simp [Particles.spawn, hc],
    fun hc count hcount => ?_, fun hc count => by simp [Particles.spawn, hc]⟩
  have hne : count ≠ 0 := by omega
  simp [Particles.spawn, hc, hne]

/-- Witness for `disabled_field_noop_spec` at concrete inputs: one from
each arm — the missing-canvas resize no-op and spawn throw, and the
null-context loop no-op and still-operative spawn. -/
theorem disabled_field_noop_spec_witness :
    Particles.resize 800 600 disabledField = disabledField ∧
    Particles.spawn oneStream oneStream oneStream oneStream oneStream
      oneStream 3 disabledField = .error "TypeError: null canvas" ∧
    Particles.loopBody idSqrt false zeroStream zeroStream
      { sampleField with ctx := false } = { sampleField with ctx := false } ∧
    Particles.spawn oneStream oneStream oneStream oneStream oneStream oneStream 2
      { sampleField with ctx := false } =
      .ok { sampleField with
            ctx := false
            particles := (List.range 2).map (fun i =>
              mkParticle sampleField.width sampleField.height (oneStream i) (oneStream i)
                (oneStream i) (oneStream i) (oneStream i) (oneStream i)) } :=
  ⟨(disabled_field_noop_spec false false false 800 600 idSqrt oneStream oneStream
      oneStream oneStream oneStream oneStream zeroStream zeroStream
      disabledField).2.2.1 rfl,
   (disabled_field_noop_spec false false false 800 600 idSqrt oneStream oneStream
      oneStream oneStream oneStream oneStream zeroStream zeroStream
      disabledField).2.2.2.2.2.2.2.2.1 rfl 3 (by norm_num),
   (disabled_field_noop_spec false false false 800 600 idSqrt oneStream oneStream
      oneStream oneStream oneStream oneStream zeroStream zeroStream
      { sampleField with ctx := false }).2.2.2.2.1 rfl,
   (disabled_field_noop_spec false false false 800 600 idSqrt oneStream oneStream
      oneStream oneStream oneStream oneStream zeroStream zeroStream
      { sampleField with ctx := false }).2.2.2.2.2.2.2.2.2 rfl 2⟩

/-- Claim C10: `spawn(count)` replaces the collection with exactly
`count` particles and, with the six random samples in `[0, 1)` and
positive canvas dimensions, every fresh particle satisfies the spawn
bounds: position in `[0, width) × [0, height)`, radius in `[0.4, 2.2)`,
alpha in `[0.08, 0.43)`, and both velocity components in
`[-0.125, 0.125)`. -/
theorem spawn_count_and_ranges (rx ry rvx rvy rr ra : ℕ → ℚ) (count : ℕ) (s : PField)
    (hc : s.canvas = true) (hw : 0 < s.width) (hh : 0 < s.height)
    (h1 : ∀ i, 0 ≤ rx i ∧ rx i < 1) (h2 : ∀ i, 0 ≤ ry i ∧ ry i < 1)
    (h3 : ∀ i, 0 ≤ rvx i ∧ rvx i < 1) (h4 : ∀ i, 0 ≤ rvy i ∧ rvy i < 1)
    (h5 : ∀ i, 0 ≤ rr i ∧ rr i < 1) (h6 : ∀ i, 0 ≤ ra i ∧ ra i < 1) :
    ∃ s', Particles.spawn rx ry rvx rvy rr ra count s = .ok s' ∧
      s'.particles.length = count ∧
      ∀ p ∈ s'.particles,
        0 ≤ p.x ∧ p.x < s.width ∧ 0 ≤ p.y ∧ p.y < s.height ∧
        0.4 ≤ p.radius ∧ p.radius < 2.2 ∧
        0.08 ≤ p.alpha ∧ p.alpha < 0.43 ∧
        -0.125 ≤ p.vx ∧ p.vx < 0.125 ∧ -0.125 ≤ p.vy ∧ p.vy < 0.125 := by
  refine ⟨{ s with particles := (List.range count).map (fun i =>
      mkParticle s.width s.height (rx i) (ry i) (rvx i) (rvy i) (rr i) (ra i)) },
    ?_, ?_, ?_⟩
  · unfold Particles.spawn
    rw [if_pos hc]
  · dsimp only
    rw [List.length_map, List.length_range]
  · intro p hp
    dsimp only at hp
    rw [List.mem_map] at hp
    obtain ⟨i, hi, rfl⟩ := hp
    obtain ⟨ha1, hb1⟩ := h1 i
    obtain ⟨ha2, hb2⟩ := h2 i
    obtain ⟨ha3, hb3⟩ := h3 i
    obtain ⟨ha4, hb4⟩ := h4 i
    obtain ⟨ha5, hb5⟩ := h5 i
    obtain ⟨ha6, hb6⟩ := h6 i
    unfold mkParticle
    dsimp only
    refine ⟨?_, ?_, ?_, ?_, ?_, ?_, ?_, ?_, ?_, ?_, ?_, ?_⟩
    · exact mul_nonneg ha1 hw.le
    · nlinarith [mul_pos (sub_pos.mpr hb1) hw]
    · exact mul_nonneg ha2 hh.le
    · nlinarith [mul_pos (sub_pos.mpr hb2) hh]
    · linarith
    · linarith
    · linarith
    · linarith
    · linarith
    · linarith
    · linarith
    · linarith

/-- Witness for `spawn_count_and_ranges` at a concrete input. -/
theorem spawn_count_and_ranges_witness :
    ∃ s', Particles.spawn halfStream halfStream halfStream halfStream
        halfStream halfStream 2 sampleField = .ok s' ∧
      s'.particles.length = 2 ∧
      ∀ p ∈ s'.particles,
        0 ≤ p.x ∧ p.x < sampleField.width ∧ 0 ≤ p.y ∧ p.y < sampleField.height ∧
        0.4 ≤ p.radius ∧ p.radius < 2.2 ∧
        0.08 ≤ p.alpha ∧ p.alpha < 0.43 ∧
        -0.125 ≤ p.vx ∧ p.vx < 0.125 ∧ -0.125 ≤ p.vy ∧ p.vy < 0.125 :=
  spawn_count_and_ranges halfStream halfStream halfStream halfStream
    halfStream halfStream 2 sampleField rfl
    (by norm_num [sampleField]) (by norm_num [sampleField])
    (fun i => by norm_num [halfStream]) (fun i => by norm_num [halfStream])
    (fun i => by norm_num [halfStream]) (fun i => by norm_num [halfStream])
    (fun i => by norm_num [halfStream]) (fun i => by norm_num [halfStream])
